import Mathlib

/-!
# connexec: bulk command execution on network devices

A shallow embedding of `src/ai_programing_v1.0.cpp` (functions `load_excel`,
`execute_commands`, `main`) and the properties of its specification.

Conventions of the embedding

* C++ exceptions are values of `Exception`; a call that may throw returns
  `Except`.  A `catch` clause is a `match` on the thrown value.
* The netmiko library (`netmiko.hpp`) is not part of the sources.  Its
  connection object is a parameter: `BaseConnection` records what each
  member function returns or throws.  Following the interface of the
  specification (section 4.2), `connect`, `enable` and `send_multiline` throw
  only `NetmikoTimeoutException` or `NetmikoAuthenticationException`, and
  `disconnect` does not throw.
* `split` and `get_current_date_str` are not part of the sources either and
  are parameters (`TaskEnv`).
* The effects on the file system are recorded as a list of `FsOp` and
  replayed on an `FS` by `FS.run`.  Path names are resolved component by
  component; a stream whose path does not resolve does not open.  Symbolic
  links, permissions and lack of space are left out.
* `std::stoi` and `getopt` are library functions; `stoi` and `getopt_all`
  model them after their documentation.
-/

namespace Connexec

/-! ## Exceptions -/

/-- The two exceptions of the netmiko library that `execute_commands` catches. -/
inductive NetmikoException where
  | NetmikoTimeoutException
  | NetmikoAuthenticationException
  deriving DecidableEq, Repr

/-- The exceptions that occur in the program: those of netmiko, and the two
that `std::stoi` throws. -/
inductive Exception where
  | netmiko (e : NetmikoException)
  | invalid_argument
  | out_of_range
  deriving DecidableEq, Repr

deriving instance DecidableEq for Except

/-! ## std::stoi -/

/-- The characters `isspace` accepts in the C locale. -/
def isspace (c : Char) : Bool :=
  c = ' ' || c = '\t' || c = '\n' || c = '\x0b' || c = '\x0c' || c = '\r'

/-- A decimal digit character. -/
def isdigit (c : Char) : Bool :=
  decide ('0'.toNat ≤ c.toNat) && decide (c.toNat ≤ '9'.toNat)

/-- Value of a run of decimal digits, most significant first. -/
def digits_value (ds : List Char) : Nat :=
  ds.foldl (fun acc c => 10 * acc + (c.toNat - '0'.toNat)) 0

/-- Splits an optional sign off the front: `(negative, rest)`. -/
def take_sign : List Char → Bool × List Char
  | '-' :: r => (true, r)
  | '+' :: r => (false, r)
  | cs => (false, cs)

/-- Model of `std::stoi(str)` (base 10): leading white space is skipped, an
optional sign is read, then the longest run of digits; characters after the
digits are ignored.  No digit: `invalid_argument`.  Value outside `int`:
`out_of_range`. -/
def stoi (str : String) : Except Exception Int :=
  let cs := str.toList.dropWhile isspace
  let sg := take_sign cs
  let ds := sg.2.takeWhile isdigit
  if ds = [] then .error .invalid_argument
  else
    let v : Int := if sg.1 then -(digits_value ds : Int) else (digits_value ds : Int)
    if v < -2147483648 ∨ 2147483647 < v then .error .out_of_range else .ok v

/-! ## Device records and the connection library -/

/-- One device: the seven keys that `load_excel` stores in the map. -/
structure Device where
  host : String
  username : String
  device_type : String
  password : String
  secret : String
  readtime : String
  mult_command : String
  deriving DecidableEq, Repr

/-- The fields of `ConnectOptions` that `execute_commands` sets. -/
structure ConnectOptions where
  username : String
  password : String
  secret : String
  read_timeout_override : Int
  deriving DecidableEq, Repr

/-- Behaviour of one netmiko connection object: what each member function
returns or throws.  `send_multiline cmds none` is the call without a prompt
marker, `send_multiline cmds (some p)` the call with marker `p`. -/
structure BaseConnection where
  connect : Except NetmikoException Unit
  enable : Except NetmikoException Unit
  send_multiline : List String → Option String → Except NetmikoException String

/-- What the functions that are not part of the sources return during one
call of `execute_commands`. -/
structure TaskEnv where
  split : String → Char → List String
  get_current_date_str : String
  BaseConnection : String → String → ConnectOptions → BaseConnection

/-- A member function called on the connection object. -/
inductive Call where
  | connect
  | enable
  | send_multiline (cmds : List String) (prompt : Option String)
  | disconnect
  deriving DecidableEq, Repr

/-! ## File system -/

/-- An effect on the file system: a call of `create_directory`, the write of
a stream opened for output (truncating), the write of a stream opened with
`ios::app`. -/
inductive FsOp where
  | create_directory (path : String)
  | write (path : String) (content : String)
  | append (path : String) (content : String)
  deriving DecidableEq, Repr

/-- The pieces of a string between occurrences of `sep`; `cur` holds, in
reverse, the characters of the piece being read. -/
def split_chars (sep : Char) : List Char → List Char → List String
  | [], cur => [String.mk cur.reverse]
  | c :: cs, cur =>
    if c = sep then String.mk cur.reverse :: split_chars sep cs []
    else split_chars sep cs (c :: cur)

/-- The components of a path name, separated by `/`. -/
def path_components (path : String) : List String :=
  split_chars '/' path.toList []

/-- A file system without symbolic links: the working directory of the
process, the directories and the files.  A place is the list of the names
from the root down; the root is `[]` and always a directory.  Of two entries
for the same file the first one is current. -/
structure FS where
  cwd : List String
  dirs : List (List String)
  files : List (List String × String)
  deriving DecidableEq, Repr

/-- Whether a place is a directory. -/
def FS.is_dir (fs : FS) (place : List String) : Bool :=
  decide (place = [] ∨ place ∈ fs.dirs)

/-- Content of the file at a place, if there is one. -/
def FS.file_at (fs : FS) (place : List String) : Option String :=
  fs.files.lookup place

/-- Follows directory names from a place: an empty name and `.` stay, `..`
goes to the parent (the root is its own parent), any other name must be an
existing directory. -/
def FS.walk (fs : FS) : List String → List String → Option (List String)
  | place, [] => some place
  | place, c :: cs =>
    if c = "" ∨ c = "." then fs.walk place cs
    else if c = ".." then fs.walk place.dropLast cs
    else if fs.is_dir (place ++ [c]) then fs.walk (place ++ [c]) cs
    else none

/-- The place that a path name denotes for the creation or the opening of an
entry: every component but the last must lead through existing directories,
from the root for an absolute path and from the working directory otherwise,
and the last component must be a proper name. -/
def FS.locate (fs : FS) (path : String) : Option (List String) :=
  if (path_components path).getLast? = some "" ∨ (path_components path).getLast? = some "."
      ∨ (path_components path).getLast? = some ".." then none
  else
    match fs.walk (if path.toList.head? = some '/' then [] else fs.cwd)
        (path_components path).dropLast, (path_components path).getLast? with
    | some dir, some name => some (dir ++ [name])
    | _, _ => none

/-- Content of the file that a path name denotes, if it exists. -/
def FS.read (fs : FS) (path : String) : Option String :=
  match fs.locate path with
  | none => none
  | some place => if fs.is_dir place then none else fs.file_at place

/-- Modelled from the spec: `create_directory` is not part of the sources;
it ensures that the output directory exists, creating it when absent (spec
section 4.3).  Nothing changes when the directory exists, when its parent
does not, or when a file has its name. -/
def FS.create_directory (fs : FS) (path : String) : FS :=
  match fs.locate path with
  | none => fs
  | some place =>
    if fs.is_dir place ∨ (fs.file_at place).isSome then fs
    else { fs with dirs := place :: fs.dirs }

/-- A stream opened on `path` (truncating when `app` is false, at the end of
the file when `app` is true), one insertion of `content`, and `close`.  When
the directory of the path does not exist or the path is a directory, the
stream does not open and the insertion has no effect. -/
def FS.ofstream (fs : FS) (path : String) (app : Bool) (content : String) : FS :=
  match fs.locate path with
  | none => fs
  | some place =>
    if fs.is_dir place then fs
    else if app then
      { fs with files := (place, (fs.file_at place).getD "" ++ content) :: fs.files }
    else { fs with files := (place, content) :: fs.files }

/-- Effect of one operation. -/
def FS.step (fs : FS) : FsOp → FS
  | .create_directory p => fs.create_directory p
  | .write p s => fs.ofstream p false s
  | .append p s => fs.ofstream p true s

/-- Effect of a sequence of operations. -/
def FS.run (fs : FS) (ops : List FsOp) : FS :=
  ops.foldl FS.step fs

/-- The lines of a text, read as `getline` reads them: each line ends at a
line break; characters after the last line break form a last line. -/
def lines_from : List Char → List Char → List String
  | [], cur => if cur = [] then [] else [String.mk cur.reverse]
  | c :: cs, cur =>
    if c = '\n' then String.mk cur.reverse :: lines_from cs []
    else lines_from cs (c :: cur)

/-- The lines of the content of a file. -/
def file_lines (content : String) : List String :=
  lines_from content.toList []

/-! ## execute_commands -/

/-- What one call of `execute_commands` did: the member functions called on
the connection, the file-system operations, the lines written to standard
output, and the exception that left the function, if any. -/
structure TaskResult where
  calls : List Call
  ops : List FsOp
  stdout : List String
  uncaught : Option Exception
  deriving DecidableEq, Repr

/-- Lines 66 to 80: the calls on the connection inside the `try` block, with
the output on normal completion or the exception that ended them. -/
def connection_sequence (conn : BaseConnection) (dev_type : String)
    (cmds : List String) : List Call × Except NetmikoException String :=
  match conn.connect with
  | .error e => ([.connect], .error e)
  | .ok _ =>
    if dev_type = " PaloAltoPanorama" then
      match conn.send_multiline cmds (some "> ") with
      | .error e => ([.connect, .send_multiline cmds (some "> ")], .error e)
      | .ok output =>
        ([.connect, .send_multiline cmds (some "> "), .disconnect], .ok output)
    else if dev_type = "Huawei" ∨ dev_type = "HuaweiTelnet"
        ∨ dev_type = "HPComware" ∨ dev_type = "HPComwareTelnet" then
      match conn.send_multiline cmds none with
      | .error e => ([.connect, .send_multiline cmds none], .error e)
      | .ok output => ([.connect, .send_multiline cmds none, .disconnect], .ok output)
    else
      match conn.enable with
      | .error e => ([.connect, .enable], .error e)
      | .ok _ =>
        match conn.send_multiline cmds none with
        | .error e => ([.connect, .enable, .send_multiline cmds none], .error e)
        | .ok output =>
          ([.connect, .enable, .send_multiline cmds none, .disconnect], .ok output)

/-- The function `execute_commands` (lines 50 to 106). -/
def execute_commands (env : TaskEnv) (device : Device) : TaskResult :=
  let ip := device.host
  let user := device.username
  let dev_type := device.device_type
  let passwd := device.password
  let secret := device.secret
  let read_time := device.readtime
  let cmds := env.split device.mult_command ';'
  match stoi read_time with
  | .error e =>
    -- neither handler matches: the exception leaves the function
    { calls := [], ops := [], stdout := [], uncaught := some e }
  | .ok timeout =>
    let conn_opts : ConnectOptions :=
      { username := user, password := passwd, secret := secret,
        read_timeout_override := timeout }
    let conn := env.BaseConnection dev_type ip conn_opts
    match connection_sequence conn dev_type cmds with
    | (calls, .ok output) =>
      let output_dir := "./result" ++ env.get_current_date_str
      { calls := calls
        ops := [.create_directory output_dir,
                .write (output_dir ++ "/" ++ ip ++ ".txt") output]
        stdout := ["Executed commands on " ++ ip]
        uncaught := none }
    | (calls, .error .NetmikoTimeoutException) =>
      { calls := calls
        ops := [.append "login_failed_list.txt" (ip ++ " Login timed out" ++ "\n")]
        stdout := ["Login timed out on " ++ ip]
        uncaught := none }
    | (calls, .error .NetmikoAuthenticationException) =>
      { calls := calls
        ops := [.append "login_failed_list.txt"
                  (ip ++ " Invalid username or password" ++ "\n")]
        stdout := ["Invalid username or password on " ++ ip]
        uncaught := none }

/-! ## load_excel -/

/-- One call `getline(ss, field, ',')` on the string stream of a line.  The
stream is `none` once it is no longer good (its end was reached).  On a
stream that is not good the call fails and leaves `field` as it was; on a
good stream the characters up to the next comma (or the end) replace `field`,
and reaching the end makes the stream not good. -/
def getline_field (ss : Option (List Char)) (field : String) :
    Option (List Char) × String :=
  match ss with
  | none => (none, field)
  | some cs =>
    match cs.dropWhile (fun c => c ≠ ',') with
    | [] => (none, String.mk (cs.takeWhile (fun c => c ≠ ',')))
    | _ :: rest => (some rest, String.mk (cs.takeWhile (fun c => c ≠ ',')))

/-- Body of the loop of `load_excel` (lines 25 to 44): the seven fields of a
line, read one after the other into the same variable `field`. -/
def parse_line (line : String) : Device :=
  let r1 := getline_field (some line.toList) ""
  let r2 := getline_field r1.1 r1.2
  let r3 := getline_field r2.1 r2.2
  let r4 := getline_field r3.1 r3.2
  let r5 := getline_field r4.1 r4.2
  let r6 := getline_field r5.1 r5.2
  let r7 := getline_field r6.1 r6.2
  { host := r1.2, username := r2.2, device_type := r3.2, password := r4.2,
    secret := r5.2, readtime := r6.2, mult_command := r7.2 }

/-- What the process finds around it: the lines of each file that can be
opened, whether `getopt` moves on past an argument that is not an option
(GNU) or stops there (POSIX), what the library functions return during the
task with a given index, and the text of `what()` of an exception. -/
structure ProcEnv where
  open_file : String → Option (List String)
  permute : Bool
  task : Nat → TaskEnv
  what : Exception → String

/-- The function `load_excel` (lines 15 to 48): the devices added to the
vector, and the lines written to standard error. -/
def load_excel (env : ProcEnv) (excel_file : String) : List Device × List String :=
  match env.open_file excel_file with
  | none => ([], ["Error: Unable to open Excel file"])
  | some lines => ((lines.drop 1).map parse_line, [])

/-! ## getopt -/

/-- The option characters of one argument after its dash, for the option
string `"c:t:"`: the results up to the end of the argument, and the option
that still waits for its value in the next argument, if any.  A character
other than `c` and `t` gives `?`. -/
def scan_cluster : List Char → List (Char × String) × Option Char
  | [] => ([], none)
  | c :: cs =>
    if c = 'c' ∨ c = 't' then
      if cs = [] then ([], some c) else ([(c, String.mk cs)], none)
    else
      (('?', "") :: (scan_cluster cs).1, (scan_cluster cs).2)

/-- Model of the successive results of `getopt(argc, argv, "c:t:")` over the
arguments after the program name, as pairs of the returned character and
`optarg`, up to the call that returns -1.  A missing option value gives `?`;
`--` ends the options.  The messages that `getopt` itself writes to standard
error are left out. -/
def getopt_all (permute : Bool) : List String → List (Char × String)
  | [] => []
  | [a] =>
    if a = "--" then []
    else
      match a.toList with
      | '-' :: c :: cs =>
        match (scan_cluster (c :: cs)).2 with
        | none => (scan_cluster (c :: cs)).1
        | some _ => (scan_cluster (c :: cs)).1 ++ [('?', "")]
      | _ => []
  | a :: v :: rest =>
    if a = "--" then []
    else
      match a.toList with
      | '-' :: c :: cs =>
        match (scan_cluster (c :: cs)).2 with
        | none => (scan_cluster (c :: cs)).1 ++ getopt_all permute (v :: rest)
        | some o => (scan_cluster (c :: cs)).1 ++ (o, v) :: getopt_all permute rest
      | _ => if permute then getopt_all permute (v :: rest) else []

/-! ## main -/

/-- The usage line that `main` prints. -/
def usage : String := "Usage: connexec -c <excel_file> -t <num_threads default:4>"

/-- The two variables that the option loop of `main` sets. -/
structure Options where
  excel_file : String
  num_threads : Int
  deriving DecidableEq, Repr

/-- The loop over the results of `getopt` (lines 112 to 131): the variables
after the loop, or the lines printed before `return 1`. -/
def option_loop (env : ProcEnv) :
    List (Char × String) → Options → Except (List String) Options
  | [], o => .ok o
  | (opt, optarg) :: rest, o =>
    if opt = 'c' then option_loop env rest { o with excel_file := optarg }
    else if opt = 't' then
      match stoi optarg with
      | .ok n => option_loop env rest { o with num_threads := n }
      | .error e => .error ["Error: " ++ env.what e, usage]
    else .error [usage]

/-- What the main thread does with the tasks, in program order: `async i`
starts the task of device `i` on a new thread (line 144), `wait i` blocks
until that task has ended (line 147). -/
inductive MainEvent where
  | async (i : Nat)
  | wait (i : Nat)
  deriving DecidableEq, Repr

/-- What one run of `main` did. -/
structure MainResult where
  exit_code : Int
  stdout : List String
  stderr : List String
  num_threads : Option Int
  loaded : List String
  devices : List Device
  events : List MainEvent
  tasks : List TaskResult
  deriving DecidableEq, Repr

/-- The two loops at the end of `main` (lines 142 to 148): one call of
`execute_commands` per device, each on its own thread; the results are given
in the order of the devices. -/
def run_tasks (env : ProcEnv) (devices : List Device) : List TaskResult :=
  devices.enum.map (fun p => execute_commands (env.task p.1) p.2)

/-- The function `main` (lines 108 to 151).  `argv` starts with the program
name.  `num_threads` is the variable after the option loop (`none` when
`main` returned from inside the loop), `loaded` lists the files given to
`load_excel`, `devices` is the vector it filled, `events` the steps of the
main thread on the futures, and `tasks` the result of `execute_commands` for
each future. -/
def main (env : ProcEnv) (argv : List String) : MainResult :=
  match option_loop env (getopt_all env.permute (argv.drop 1))
      { excel_file := "", num_threads := 4 } with
  | .error out =>
    { exit_code := 1, stdout := out, stderr := [], num_threads := none, loaded := [],
      devices := [], events := [], tasks := [] }
  | .ok o =>
    if o.excel_file = "" then
      { exit_code := 1, stdout := ["Error: Excel file not specified", usage],
        stderr := [], num_threads := some o.num_threads, loaded := [], devices := [],
        events := [], tasks := [] }
    else
      let devices := load_excel env o.excel_file
      { exit_code := 0, stdout := [], stderr := devices.2,
        num_threads := some o.num_threads, loaded := [o.excel_file],
        devices := devices.1,
        events := (List.range devices.1.length).map MainEvent.async
          ++ (List.range devices.1.length).map MainEvent.wait,
        tasks := run_tasks env devices.1 }

/-! ## Threads -/

/-- A step of the process as a whole: a step of the main thread, or the end
of the task with the given index on its own thread. -/
inductive Event where
  | main (e : MainEvent)
  | finish (i : Nat)
  deriving DecidableEq, Repr

/-- The tasks started so far and those that have ended. -/
structure Pool where
  started : List Nat
  finished : List Nat
  deriving DecidableEq, Repr

/-- The tasks that run `execute_commands` at this instant. -/
def Pool.running (p : Pool) : List Nat :=
  p.started.filter (fun i => i ∉ p.finished)

/-- One step, when it can happen: `async` starts a thread at once
(`launch::async`), a task ends only when it runs, and `wait` returns only
when the task has ended. -/
def Pool.step (p : Pool) : Event → Option Pool
  | .main (.async i) => some { p with started := i :: p.started }
  | .main (.wait i) => if i ∈ p.finished then some p else none
  | .finish i =>
    if i ∈ p.started ∧ i ∉ p.finished then some { p with finished := i :: p.finished }
    else none

/-- The pool after a sequence of steps, when each of them can happen. -/
def Pool.exec (p : Pool) : List Event → Option Pool
  | [] => some p
  | e :: es =>
    match p.step e with
    | none => none
    | some q => q.exec es

/-- The steps of the main thread within a sequence of steps. -/
def main_steps : List Event → List MainEvent
  | [] => []
  | .main e :: es => e :: main_steps es
  | .finish _ :: es => main_steps es

/-- The pool that a sequence of steps reaches, when the sequence is the start
of an execution of the program: the main thread follows its program order
and every step can happen. -/
def reached (program : List MainEvent) (steps : List Event) : Option Pool :=
  if main_steps steps <+: program then
    Pool.exec { started := [], finished := [] } steps
  else none

/-! ## Environments for concrete runs -/

/-- A connection on which every call succeeds; the commands return `"out"`. -/
def conn_ok : BaseConnection :=
  { connect := .ok (), enable := .ok (), send_multiline := fun _ _ => .ok "out" }

/-- A connection whose `connect` throws the given exception. -/
def conn_refused (e : NetmikoException) : BaseConnection :=
  { connect := .error e, enable := .ok (), send_multiline := fun _ _ => .ok "out" }

/-- A connection that connects and then rejects the enable secret. -/
def conn_enable_fails : BaseConnection :=
  { connect := .ok (), enable := .error .NetmikoAuthenticationException,
    send_multiline := fun _ _ => .ok "out" }

/-- A connection that connects, enables, and times out on the commands. -/
def conn_send_fails : BaseConnection :=
  { connect := .ok (), enable := .ok (),
    send_multiline := fun _ _ => .error .NetmikoTimeoutException }

/-- A task environment with the given connection behaviour, on 2024-01-01. -/
def task_env (conn : BaseConnection) : TaskEnv :=
  { split := fun s sep => split_chars sep s.toList []
    get_current_date_str := "2024-01-01"
    BaseConnection := fun _ _ _ => conn }

/-- A device of the given type at 10.0.0.1 with a numeric read time. -/
def sample_device (device_type : String) : Device :=
  { host := "10.0.0.1", username := "admin", device_type := device_type,
    password := "pw", secret := "sec", readtime := "10",
    mult_command := "show version;show clock" }

/-- The sample device with another host. -/
def sample_device_at (host : String) : Device :=
  { sample_device "CiscoIOS" with host := host }

/-- A file system for the sample runs: the working directory `/home/ops`
holds a failure log with one line. -/
def sample_fs : FS :=
  { cwd := ["home", "ops"]
    dirs := [["home"], ["home", "ops"]]
    files := [(["home", "ops", "login_failed_list.txt"], "10.0.0.9 Login timed out\n")] }

/-- The lines of the files of the sample runs: `devices.csv` has two devices
with numeric read time, `mixed.csv` one device whose read time is `abc` and
one with a numeric read time. -/
def sample_files (path : String) : Option (List String) :=
  if path = "devices.csv" then
    some ["host,username,device_type,password,secret,readtime,mult_command",
      "10.0.0.1,admin,CiscoIOS,pw,sec,10,show version;show clock",
      "10.0.0.2,admin,Huawei,pw,sec,10,display version"]
  else if path = "mixed.csv" then
    some ["host,username,device_type,password,secret,readtime,mult_command",
      "10.0.0.1,admin,CiscoIOS,pw,sec,abc,show version",
      "10.0.0.2,admin,CiscoIOS,pw,sec,10,show version"]
  else none

/-- A process environment for the sample runs: every connection succeeds. -/
def sample_env : ProcEnv :=
  { open_file := sample_files
    permute := true
    task := fun _ => task_env conn_ok
    what := fun _ => "stoi" }

/-- Whether `stoi` reads a number from the string. -/
def stoi_accepts (str : String) : Bool :=
  match stoi str with
  | .ok _ => true
  | .error _ => false

/-- Whether a file operation records an outcome: the write of an output
file or an append to the failure log. -/
def is_record : FsOp → Bool
  | .create_directory _ => false
  | .write _ _ => true
  | .append _ _ => true

/-- Number of outcomes that a task recorded. -/
def records (r : TaskResult) : Nat :=
  r.ops.countP is_record

/-- The wording of claim C9: the string is a decimal integer, that is an
optional sign followed by one or more digits and nothing else. -/
def is_decimal_integer (str : String) : Bool :=
  (take_sign str.toList).2 ≠ [] && (take_sign str.toList).2.all isdigit

/-! ## Properties of execute_commands -/

/-- The connection object that `execute_commands` builds for a device whose
read time `stoi` reads as `t`. -/
def connection_of (env : TaskEnv) (d : Device) (t : Int) : BaseConnection :=
  env.BaseConnection d.device_type d.host
    { username := d.username, password := d.password, secret := d.secret,
      read_timeout_override := t }

/-- When `stoi` rejects the read time the exception leaves the function and
nothing else happens. -/
theorem execute_commands_stoi_error (env : TaskEnv) (d : Device) (e : Exception)
    (hs : stoi d.readtime = .error e) :
    execute_commands env d = { calls := [], ops := [], stdout := [], uncaught := some e } := by
  unfold execute_commands
  simp only [hs]

/-- The result of `execute_commands` when the connection sequence completes. -/
theorem execute_commands_success (env : TaskEnv) (d : Device) (t : Int)
    (calls : List Call) (output : String)
    (hs : stoi d.readtime = .ok t)
    (hq : connection_sequence (connection_of env d t) d.device_type
      (env.split d.mult_command ';') = (calls, .ok output)) :
    execute_commands env d =
      { calls := calls
        ops := [.create_directory ("./result" ++ env.get_current_date_str),
                .write ("./result" ++ env.get_current_date_str ++ "/" ++ d.host ++ ".txt")
                  output]
        stdout := ["Executed commands on " ++ d.host]
        uncaught := none } := by
  unfold execute_commands
  unfold connection_of at hq
  simp only [hs, hq]

/-- The result of `execute_commands` when the connection sequence times out. -/
theorem execute_commands_timeout (env : TaskEnv) (d : Device) (t : Int)
    (calls : List Call)
    (hs : stoi d.readtime = .ok t)
    (hq : connection_sequence (connection_of env d t) d.device_type
      (env.split d.mult_command ';') = (calls, .error .NetmikoTimeoutException)) :
    execute_commands env d =
      { calls := calls
        ops := [.append "login_failed_list.txt" (d.host ++ " Login timed out" ++ "\n")]
        stdout := ["Login timed out on " ++ d.host]
        uncaught := none } := by
  unfold execute_commands
  unfold connection_of at hq
  simp only [hs, hq]

/-- The result of `execute_commands` when the connection sequence is refused. -/
theorem execute_commands_auth (env : TaskEnv) (d : Device) (t : Int)
    (calls : List Call)
    (hs : stoi d.readtime = .ok t)
    (hq : connection_sequence (connection_of env d t) d.device_type
      (env.split d.mult_command ';') = (calls, .error .NetmikoAuthenticationException)) :
    execute_commands env d =
      { calls := calls
        ops := [.append "login_failed_list.txt"
                  (d.host ++ " Invalid username or password" ++ "\n")]
        stdout := ["Invalid username or password on " ++ d.host]
        uncaught := none } := by
  unfold execute_commands
  unfold connection_of at hq
  simp only [hs, hq]

/-- The calls of `execute_commands` are those of the connection sequence. -/
theorem execute_commands_calls (env : TaskEnv) (d : Device) (t : Int)
    (hs : stoi d.readtime = .ok t) :
    (execute_commands env d).calls =
      (connection_sequence (connection_of env d t) d.device_type
        (env.split d.mult_command ';')).1 := by
  rcases hq : connection_sequence (connection_of env d t) d.device_type
      (env.split d.mult_command ';') with ⟨calls, e | o⟩
  · cases e
    · rw [execute_commands_timeout env d t calls hs hq]
    · rw [execute_commands_auth env d t calls hs hq]
  · rw [execute_commands_success env d t calls o hs hq]

/-- The calls of the connection sequence for a device of the Huawei and
HPComware family. -/
theorem connection_sequence_huawei (conn : BaseConnection) (dev_type : String)
    (cmds : List String)
    (h : dev_type = "Huawei" ∨ dev_type = "HuaweiTelnet"
      ∨ dev_type = "HPComware" ∨ dev_type = "HPComwareTelnet") :
    (connection_sequence conn dev_type cmds).1 =
      match conn.connect with
      | .error _ => [.connect]
      | .ok _ =>
        match conn.send_multiline cmds none with
        | .error _ => [.connect, .send_multiline cmds none]
        | .ok _ => [.connect, .send_multiline cmds none, .disconnect] := by
  have hp : dev_type ≠ " PaloAltoPanorama" := by
    rcases h with h | h | h | h <;> subst h <;> decide
  unfold connection_sequence
  cases conn.connect with
  | error e => rfl
  | ok u =>
    simp only [hp, h, if_true, if_false]
    cases conn.send_multiline cmds none <;> rfl

/-- The calls of the connection sequence for a device on the default path. -/
theorem connection_sequence_default (conn : BaseConnection) (dev_type : String)
    (cmds : List String)
    (h : ¬ (dev_type = "Huawei" ∨ dev_type = "HuaweiTelnet"
      ∨ dev_type = "HPComware" ∨ dev_type = "HPComwareTelnet"))
    (hp : dev_type ≠ " PaloAltoPanorama") :
    (connection_sequence conn dev_type cmds).1 =
      match conn.connect with
      | .error _ => [.connect]
      | .ok _ =>
        match conn.enable with
        | .error _ => [.connect, .enable]
        | .ok _ =>
          match conn.send_multiline cmds none with
          | .error _ => [.connect, .enable, .send_multiline cmds none]
          | .ok _ => [.connect, .enable, .send_multiline cmds none, .disconnect] := by
  unfold connection_sequence
  cases conn.connect with
  | error e => rfl
  | ok u =>
    simp only [hp, h, if_false]
    cases conn.enable with
    | error e => rfl
    | ok u2 => cases conn.send_multiline cmds none <;> rfl

/-! ## Dialect routing -/

/-- C1: for a device whose type is Huawei, HuaweiTelnet, HPComware or
HPComwareTelnet, whatever the command list and the behaviour of the
connection, `execute_commands` never calls `enable`; its calls are an initial
part of connect, `send_multiline(cmds)` without prompt marker, disconnect;
and once `connect` has returned, the calls are connect, then that one
`send_multiline(cmds)`, then disconnect when the commands returned. -/
theorem C1_huawei_family_sends_without_enable (env : TaskEnv) (d : Device)
    (h : d.device_type = "Huawei" ∨ d.device_type = "HuaweiTelnet"
      ∨ d.device_type = "HPComware" ∨ d.device_type = "HPComwareTelnet") :
    Call.enable ∉ (execute_commands env d).calls
    ∧ (execute_commands env d).calls <+:
        [.connect, .send_multiline (env.split d.mult_command ';') none, .disconnect]
    ∧ ∀ t, stoi d.readtime = .ok t → (connection_of env d t).connect = .ok () →
        (execute_commands env d).calls =
          .connect :: .send_multiline (env.split d.mult_command ';') none ::
            (match (connection_of env d t).send_multiline
                (env.split d.mult_command ';') none with
              | .ok _ => [.disconnect]
              | .error _ => []) := by
  cases hs : stoi d.readtime with
  | error e =>
    rw [execute_commands_stoi_error env d e hs]
    refine ⟨by simp, ⟨_, List.nil_append _⟩, ?_⟩
    intro t ht
    cases ht
  | ok t =>
    rw [execute_commands_calls env d t hs, connection_sequence_huawei _ _ _ h]
    cases hc : (connection_of env d t).connect with
    | error e =>
      refine ⟨by simp, ⟨[.send_multiline (env.split d.mult_command ';') none,
        .disconnect], rfl⟩, ?_⟩
      intro t2 ht2 hc2
      cases ht2
      rw [hc] at hc2
      cases hc2
    | ok u =>
      cases hm : (connection_of env d t).send_multiline
          (env.split d.mult_command ';') none with
      | error e =>
        refine ⟨by simp, ⟨[.disconnect], rfl⟩, ?_⟩
        intro t2 ht2 _
        cases ht2
        rw [hm]
      | ok o =>
        refine ⟨by simp, ⟨[], rfl⟩, ?_⟩
        intro t2 ht2 _
        cases ht2
        rw [hm]

/-- Witness of C1: a HuaweiTelnet device on a connection where every call
succeeds. -/
theorem C1_huawei_family_sends_without_enable_witness :
    Call.enable ∉ (execute_commands (task_env conn_ok) (sample_device "HuaweiTelnet")).calls
    ∧ (execute_commands (task_env conn_ok) (sample_device "HuaweiTelnet")).calls =
        [.connect, .send_multiline ["show version", "show clock"] none, .disconnect] := by
  have h := C1_huawei_family_sends_without_enable (task_env conn_ok)
    (sample_device "HuaweiTelnet") (by decide)
  exact ⟨h.1, h.2.2 10 (by decide) rfl⟩

/-- For a device whose type is none of the four Huawei and HPComware types
and is not the string compared at line 70, the calls of `execute_commands`
are an initial part of connect, enable, `send_multiline(cmds)` without prompt
marker, disconnect; and once `connect` has returned, `enable` is called
exactly once, directly after connect and before the commands are sent. -/
theorem default_path_calls (env : TaskEnv) (d : Device)
    (h : ¬ (d.device_type = "Huawei" ∨ d.device_type = "HuaweiTelnet"
      ∨ d.device_type = "HPComware" ∨ d.device_type = "HPComwareTelnet"))
    (hp : d.device_type ≠ " PaloAltoPanorama") :
    (execute_commands env d).calls <+:
        [.connect, .enable, .send_multiline (env.split d.mult_command ';') none,
          .disconnect]
    ∧ ∀ t, stoi d.readtime = .ok t → (connection_of env d t).connect = .ok () →
        (execute_commands env d).calls.count .enable = 1
        ∧ (execute_commands env d).calls =
          .connect :: .enable ::
            (match (connection_of env d t).enable with
              | .error _ => []
              | .ok _ =>
                .send_multiline (env.split d.mult_command ';') none ::
                  (match (connection_of env d t).send_multiline
                      (env.split d.mult_command ';') none with
                    | .ok _ => [.disconnect]
                    | .error _ => [])) := by
  cases hs : stoi d.readtime with
  | error e =>
    rw [execute_commands_stoi_error env d e hs]
    refine ⟨⟨_, List.nil_append _⟩, ?_⟩
    intro t ht
    cases ht
  | ok t =>
    rw [execute_commands_calls env d t hs, connection_sequence_default _ _ _ h hp]
    cases hc : (connection_of env d t).connect with
    | error e =>
      refine ⟨⟨[.enable, .send_multiline (env.split d.mult_command ';') none,
        .disconnect], rfl⟩, ?_⟩
      intro t2 ht2 hc2
      cases ht2
      rw [hc] at hc2
      cases hc2
    | ok u =>
      cases he : (connection_of env d t).enable with
      | error e =>
        refine ⟨⟨[.send_multiline (env.split d.mult_command ';') none,
          .disconnect], rfl⟩, ?_⟩
        intro t2 ht2 _
        cases ht2
        rw [he]
        exact ⟨by simp, rfl⟩
      | ok u2 =>
        cases hm : (connection_of env d t).send_multiline
            (env.split d.mult_command ';') none with
        | error e =>
          refine ⟨⟨[.disconnect], rfl⟩, ?_⟩
          intro t2 ht2 _
          cases ht2
          rw [he, hm]
          exact ⟨by simp, rfl⟩
        | ok o =>
          refine ⟨⟨[], rfl⟩, ?_⟩
          intro t2 ht2 _
          cases ht2
          rw [he, hm]
          exact ⟨by simp, rfl⟩

/-- C2: the type string `" PaloAltoPanorama"`, which a line of the input
file with a blank after the comma gives, is none of the four Huawei and
HPComware types and is not `"PaloAltoPanorama"`, yet it is the string that
line 70 compares with: `execute_commands` sends the commands with the marker
`"> "` and never calls `enable`, while a type that the routing does not know,
such as `"CiscoIOS"`, has `enable` called right after connect. -/
theorem C2_blank_type_skips_enable :
    (parse_line "10.0.0.3,admin, PaloAltoPanorama,pw,sec,10,show system info").device_type
      = " PaloAltoPanorama"
    ∧ " PaloAltoPanorama" ≠ "PaloAltoPanorama"
    ∧ " PaloAltoPanorama" ≠ "Huawei" ∧ " PaloAltoPanorama" ≠ "HuaweiTelnet"
    ∧ " PaloAltoPanorama" ≠ "HPComware" ∧ " PaloAltoPanorama" ≠ "HPComwareTelnet"
    ∧ (execute_commands (task_env conn_ok)
        (parse_line "10.0.0.3,admin, PaloAltoPanorama,pw,sec,10,show system info")).calls
      = [.connect, .send_multiline ["show system info"] (some "> "), .disconnect]
    ∧ (execute_commands (task_env conn_ok)
        (parse_line "10.0.0.3,admin,CiscoIOS,pw,sec,10,show system info")).calls
      = [.connect, .enable, .send_multiline ["show system info"] none, .disconnect] := by
  decide

/-- C3: a device whose type is the string `"PaloAltoPanorama"` is not
recognised by the comparison of line 70, whose literal starts with a blank:
`execute_commands` calls `enable` and sends the commands without the prompt
marker.  Only the type `" PaloAltoPanorama"` is sent with marker `"> "`. -/
theorem C3_panorama_name_takes_default_path :
    (execute_commands (task_env conn_ok) (sample_device "PaloAltoPanorama")).calls
      = [.connect, .enable, .send_multiline ["show version", "show clock"] none,
          .disconnect]
    ∧ (execute_commands (task_env conn_ok) (sample_device " PaloAltoPanorama")).calls
      = [.connect, .send_multiline ["show version", "show clock"] (some "> "),
          .disconnect] := by
  decide

/-- C7: when `enable` or `send_multiline` throws after `connect` has
returned, `execute_commands` returns without a call of `disconnect`; the
call is made on the path where nothing throws. -/
theorem C7_no_disconnect_after_failure :
    (execute_commands (task_env conn_enable_fails) (sample_device "CiscoIOS")).calls
      = [.connect, .enable]
    ∧ (execute_commands (task_env conn_send_fails) (sample_device "Huawei")).calls
      = [.connect, .send_multiline ["show version", "show clock"] none]
    ∧ (execute_commands (task_env conn_ok) (sample_device "Huawei")).calls
      = [.connect, .send_multiline ["show version", "show clock"] none, .disconnect] := by
  decide

/-! ## Recording the outcome -/

/-- A run of characters without the separator is one piece. -/
theorem split_chars_piece (sep : Char) (a : List Char) (h : sep ∉ a) :
    ∀ cur : List Char, split_chars sep a cur = [String.mk (cur.reverse ++ a)] := by
  induction a with
  | nil => intro cur; simp [split_chars]
  | cons c a ih =>
    intro cur
    have hc : c ≠ sep := fun hc => h (hc ▸ List.mem_cons_self _ _)
    have ha : sep ∉ a := fun ha => h (List.mem_cons_of_mem _ ha)
    simp [split_chars, hc, ih ha]

/-- Pieces of a run without the separator, followed by the separator and
more characters. -/
theorem split_chars_append (sep : Char) (a rest : List Char) (h : sep ∉ a) :
    ∀ cur : List Char,
      split_chars sep (a ++ sep :: rest) cur
        = String.mk (cur.reverse ++ a) :: split_chars sep rest [] := by
  induction a with
  | nil => intro cur; simp [split_chars]
  | cons c a ih =>
    intro cur
    have hc : c ≠ sep := fun hc => h (hc ▸ List.mem_cons_self _ _)
    have ha : sep ∉ a := fun ha => h (List.mem_cons_of_mem _ ha)
    simp [split_chars, hc, ih ha]

/-- The components of the path of an output file, when neither the date nor
the host holds a `/`. -/
theorem output_path_components (date host : String)
    (hdate : '/' ∉ date.toList) (hhost : '/' ∉ host.toList) :
    path_components ("./result" ++ date ++ "/" ++ host ++ ".txt")
      = [".", "result" ++ date, host ++ ".txt"] := by
  have h1 : ("./result" ++ date ++ "/" ++ host ++ ".txt").toList
      = ['.'] ++ '/' :: (("result" ++ date).toList ++ '/' :: (host ++ ".txt").toList) := by
    simp [String.toList, String.data_append]
  have h2 : '/' ∉ ("result" ++ date).toList := by
    simp only [String.toList, String.data_append, List.mem_append, not_or]
    exact ⟨by decide, hdate⟩
  have h3 : '/' ∉ (host ++ ".txt").toList := by
    simp only [String.toList, String.data_append, List.mem_append, not_or]
    exact ⟨hhost, by decide⟩
  unfold path_components
  rw [h1, split_chars_append _ _ _ (by decide), split_chars_append _ _ _ h2,
    split_chars_piece _ _ h3]
  rfl

/-- The components of the path of the output directory. -/
theorem output_dir_components (date : String) (hdate : '/' ∉ date.toList) :
    path_components ("./result" ++ date) = [".", "result" ++ date] := by
  have h1 : ("./result" ++ date).toList = ['.'] ++ '/' :: ("result" ++ date).toList := by
    simp [String.toList, String.data_append]
  have h2 : '/' ∉ ("result" ++ date).toList := by
    simp only [String.toList, String.data_append, List.mem_append, not_or]
    exact ⟨by decide, hdate⟩
  unfold path_components
  rw [h1, split_chars_append _ _ _ (by decide), split_chars_piece _ _ h2]
  rfl

/-- The name of the output directory is a proper name. -/
theorem result_name_proper (date : String) :
    "result" ++ date ≠ "" ∧ "result" ++ date ≠ "." ∧ "result" ++ date ≠ ".."
      ∧ "result" ++ date ≠ "login_failed_list.txt" := by
  refine ⟨?_, ?_, ?_, ?_⟩ <;>
    · intro h
      have h2 := congrArg String.data h
      simp only [String.data_append] at h2
      cases h2

/-- The name of an output file is a proper name. -/
theorem txt_name_proper (host : String) :
    host ++ ".txt" ≠ "" ∧ host ++ ".txt" ≠ "." ∧ host ++ ".txt" ≠ ".." := by
  refine ⟨?_, ?_, ?_⟩ <;>
    · intro h
      have h2 := congrArg String.length h
      simp only [String.length_append] at h2
      have h3 : ".txt".length = 4 := by decide
      have h4 : "".length = 0 := by decide
      have h5 : ".".length = 1 := by decide
      have h6 : "..".length = 2 := by decide
      omega

/-- The place of a relative path whose directory part leads to `dir` and
whose last component is a proper name. -/
theorem FS.locate_relative (fs : FS) (path : String) (init dir : List String)
    (name : String) (hc : path_components path = init ++ [name])
    (h1 : name ≠ "") (h2 : name ≠ ".") (h3 : name ≠ "..")
    (hrel : path.toList.head? ≠ some '/')
    (hw : fs.walk fs.cwd init = some dir) :
    fs.locate path = some (dir ++ [name]) := by
  have hrel2 : ¬ path.data.head? = some '/' := hrel
  unfold FS.locate
  rw [hc]
  simp [h1, h2, h3, hrel2, hw]

/-- The place of the failure log. -/
theorem FS.locate_log (fs : FS) :
    fs.locate "login_failed_list.txt" = some (fs.cwd ++ ["login_failed_list.txt"]) :=
  fs.locate_relative "login_failed_list.txt" [] fs.cwd "login_failed_list.txt"
    (by decide) (by decide) (by decide) (by decide) (by decide) rfl

/-- The place of the output directory. -/
theorem FS.locate_output_dir (fs : FS) (date : String) (hdate : '/' ∉ date.toList) :
    fs.locate ("./result" ++ date) = some (fs.cwd ++ ["result" ++ date]) := by
  obtain ⟨h1, h2, h3, _⟩ := result_name_proper date
  refine fs.locate_relative _ ["."] fs.cwd _ (output_dir_components date hdate) h1 h2 h3 ?_ ?_
  · simp [String.toList, String.data_append]
  · simp [FS.walk]

/-- The place of an output file, once the output directory exists. -/
theorem FS.locate_output_file (fs : FS) (date host : String)
    (hdate : '/' ∉ date.toList) (hhost : '/' ∉ host.toList)
    (hdir : fs.is_dir (fs.cwd ++ ["result" ++ date]) = true) :
    fs.locate ("./result" ++ date ++ "/" ++ host ++ ".txt")
      = some (fs.cwd ++ ["result" ++ date, host ++ ".txt"]) := by
  obtain ⟨h1, h2, h3, _⟩ := result_name_proper date
  obtain ⟨k1, k2, k3⟩ := txt_name_proper host
  have h := fs.locate_relative ("./result" ++ date ++ "/" ++ host ++ ".txt")
    [".", "result" ++ date] (fs.cwd ++ ["result" ++ date]) (host ++ ".txt")
    (output_path_components date host hdate hhost) k1 k2 k3
    (by simp [String.toList, String.data_append])
    (by simp [FS.walk, h1, h2, h3, hdir])
  rw [h, List.append_assoc]
  rfl

/-- Reading the failure log, when no directory has its name. -/
theorem FS.read_log (fs : FS)
    (hlog : fs.is_dir (fs.cwd ++ ["login_failed_list.txt"]) = false) :
    fs.read "login_failed_list.txt" = fs.file_at (fs.cwd ++ ["login_failed_list.txt"]) := by
  unfold FS.read
  rw [fs.locate_log]
  simp [hlog]

/-- The file system after one append to the failure log, when no directory
has its name. -/
theorem FS.run_append_log (fs : FS) (text : String)
    (hlog : fs.is_dir (fs.cwd ++ ["login_failed_list.txt"]) = false) :
    fs.run [.append "login_failed_list.txt" text]
      = { fs with
          files := (fs.cwd ++ ["login_failed_list.txt"],
            (fs.file_at (fs.cwd ++ ["login_failed_list.txt"])).getD "" ++ text)
              :: fs.files } := by
  simp only [FS.run, List.foldl, FS.step, FS.ofstream]
  rw [fs.locate_log]
  simp [hlog]

/-- A place in the list of directories is a directory. -/
theorem FS.is_dir_of_mem (fs : FS) (place : List String) (h : place ∈ fs.dirs) :
    fs.is_dir place = true := by
  unfold FS.is_dir
  exact decide_eq_true (Or.inr h)

/-- A place that is not the root and not in the list of directories is
not a directory. -/
theorem FS.not_is_dir (fs : FS) (place : List String) (h0 : place ≠ [])
    (h : place ∉ fs.dirs) : fs.is_dir place = false := by
  unfold FS.is_dir
  exact decide_eq_false (fun hor => hor.elim h0 h)

/-- A place that is not a directory is not in the list of directories. -/
theorem FS.not_mem_of_not_is_dir (fs : FS) (place : List String)
    (h : fs.is_dir place = false) : place ∉ fs.dirs := by
  intro hin
  rw [fs.is_dir_of_mem place hin] at h
  cases h

/-- The file system after the two operations of a successful task, when
neither the date nor the host holds a `/`, the output directory exists or
can be created, and no directory has the name of the output file. -/
theorem FS.run_output (fs : FS) (date host o : String)
    (hdate : '/' ∉ date.toList) (hhost : '/' ∉ host.toList)
    (hd : fs.is_dir (fs.cwd ++ ["result" ++ date]) = true
      ∨ fs.file_at (fs.cwd ++ ["result" ++ date]) = none)
    (hf : fs.is_dir (fs.cwd ++ ["result" ++ date, host ++ ".txt"]) = false) :
    ∃ dirs,
      fs.run [.create_directory ("./result" ++ date),
          .write ("./result" ++ date ++ "/" ++ host ++ ".txt") o]
        = { cwd := fs.cwd, dirs := dirs,
            files := (fs.cwd ++ ["result" ++ date, host ++ ".txt"], o) :: fs.files }
      ∧ (dirs = fs.dirs ∨ dirs = (fs.cwd ++ ["result" ++ date]) :: fs.dirs)
      ∧ fs.cwd ++ ["result" ++ date] ∈ dirs := by
  have hne : fs.cwd ++ ["result" ++ date, host ++ ".txt"]
      ≠ fs.cwd ++ ["result" ++ date] := by
    intro h
    have h2 := congrArg List.length h
    simp at h2
  have hne0 : fs.cwd ++ ["result" ++ date, host ++ ".txt"] ≠ [] := by
    intro h
    have h2 := congrArg List.length h
    simp at h2
  have hne1 : fs.cwd ++ ["result" ++ date] ≠ [] := by
    intro h
    have h2 := congrArg List.length h
    simp at h2
  have hstep : ∃ dirs, fs.create_directory ("./result" ++ date)
        = { cwd := fs.cwd, dirs := dirs, files := fs.files }
      ∧ (dirs = fs.dirs ∨ dirs = (fs.cwd ++ ["result" ++ date]) :: fs.dirs)
      ∧ fs.cwd ++ ["result" ++ date] ∈ dirs := by
    unfold FS.create_directory
    rw [fs.locate_output_dir date hdate]
    by_cases hdir : fs.is_dir (fs.cwd ++ ["result" ++ date]) = true
    · have hin : fs.cwd ++ ["result" ++ date] ∈ fs.dirs := by
        unfold FS.is_dir at hdir
        exact (of_decide_eq_true hdir).resolve_left hne1
      refine ⟨fs.dirs, ?_, Or.inl rfl, hin⟩
      simp only
      rw [if_pos (Or.inl hdir)]
    · have hnone : fs.file_at (fs.cwd ++ ["result" ++ date]) = none := by
        rcases hd with hd | hd
        · exact absurd hd hdir
        · exact hd
      refine ⟨(fs.cwd ++ ["result" ++ date]) :: fs.dirs, ?_, Or.inr rfl,
        List.mem_cons_self _ _⟩
      simp only
      rw [hnone, if_neg]
      intro hor
      rcases hor with hor | hor
      · exact hdir hor
      · cases hor
  obtain ⟨dirs, h1, h2, h3⟩ := hstep
  refine ⟨dirs, ?_, h2, h3⟩
  have hdir1 : FS.is_dir { cwd := fs.cwd, dirs := dirs, files := fs.files }
      (fs.cwd ++ ["result" ++ date]) = true :=
    FS.is_dir_of_mem _ _ h3
  have hf2 := fs.not_mem_of_not_is_dir _ hf
  have hf1 : FS.is_dir { cwd := fs.cwd, dirs := dirs, files := fs.files }
      (fs.cwd ++ ["result" ++ date, host ++ ".txt"]) = false := by
    apply FS.not_is_dir _ _ hne0
    rcases h2 with h2 | h2
    · subst h2
      exact hf2
    · subst h2
      intro hin
      rcases List.mem_cons.mp hin with hin | hin
      · exact hne hin
      · exact hf2 hin
  have hloc := FS.locate_output_file { cwd := fs.cwd, dirs := dirs, files := fs.files }
    date host hdate hhost hdir1
  simp only [FS.run, List.foldl, FS.step]
  rw [h1]
  unfold FS.ofstream
  rw [hloc]
  simp only [hf1, Bool.false_eq_true, if_false]

/-- A run of characters without line break, followed by a line break, is one
line. -/
theorem lines_from_line (l : List Char) (h : '\n' ∉ l) :
    ∀ cur : List Char, lines_from (l ++ ['\n']) cur = [String.mk (cur.reverse ++ l)] := by
  induction l with
  | nil => intro cur; simp [lines_from]
  | cons c l ih =>
    intro cur
    have hc : c ≠ '\n' := fun hc => h (hc ▸ List.mem_cons_self _ _)
    have hl : '\n' ∉ l := fun hl => h (List.mem_cons_of_mem _ hl)
    simp [lines_from, hc, ih hl]

/-- The lines of a text that ends with a line break, followed by more text. -/
theorem lines_from_append (pre rest : List Char) :
    ∀ cur : List Char,
      lines_from (pre ++ '\n' :: rest) cur
        = lines_from (pre ++ ['\n']) cur ++ lines_from rest [] := by
  induction pre with
  | nil => intro cur; simp [lines_from]
  | cons c pre ih =>
    intro cur
    by_cases hc : c = '\n'
    · simp [lines_from, hc, ih]
    · simp [lines_from, hc, ih]

/-- Appending one line to a text that is empty or ends with a line break
adds that line after the lines of the text. -/
theorem file_lines_append (old line : String) (hline : '\n' ∉ line.toList)
    (hold : old = "" ∨ ∃ pre : String, old = pre ++ "\n") :
    file_lines (old ++ (line ++ "\n")) = file_lines old ++ [line] := by
  rcases hold with rfl | ⟨pre, rfl⟩
  · have h := lines_from_line line.toList hline []
    simp only [file_lines, String.toList, String.data_append] at h ⊢
    simpa using h
  · have h1 := lines_from_append pre.toList (line.toList ++ ['\n']) []
    have h2 := lines_from_line line.toList hline []
    simp only [file_lines, String.toList, String.data_append] at h1 h2 ⊢
    simp only [List.append_assoc, List.singleton_append] at h1 ⊢
    rw [h1, h2]
    simp

/-- The result of the connection sequence in terms of what the calls on the
connection return or throw. -/
theorem connection_sequence_result (conn : BaseConnection) (dev_type : String)
    (cmds : List String) :
    (connection_sequence conn dev_type cmds).2 =
      match conn.connect with
      | .error e => .error e
      | .ok _ =>
        if dev_type = " PaloAltoPanorama" then conn.send_multiline cmds (some "> ")
        else if dev_type = "Huawei" ∨ dev_type = "HuaweiTelnet"
            ∨ dev_type = "HPComware" ∨ dev_type = "HPComwareTelnet" then
          conn.send_multiline cmds none
        else
          match conn.enable with
          | .error e => .error e
          | .ok _ => conn.send_multiline cmds none := by
  unfold connection_sequence
  cases conn.connect with
  | error e => rfl
  | ok u =>
    simp only
    split
    · cases conn.send_multiline cmds (some "> ") <;> rfl
    · split
      · cases conn.send_multiline cmds none <;> rfl
      · cases conn.enable with
        | error e => rfl
        | ok u2 => cases conn.send_multiline cmds none <;> rfl

/-- The file operations of `execute_commands` when the connection sequence
ends with an exception. -/
theorem execute_commands_ops_failure (env : TaskEnv) (d : Device) (t : Int)
    (e : NetmikoException) (reason : String)
    (hs : stoi d.readtime = .ok t)
    (hq : (connection_sequence (connection_of env d t) d.device_type
      (env.split d.mult_command ';')).2 = .error e)
    (hr : (e = .NetmikoAuthenticationException ∧ reason = " Invalid username or password")
      ∨ (e = .NetmikoTimeoutException ∧ reason = " Login timed out")) :
    (execute_commands env d).ops
      = [.append "login_failed_list.txt" (d.host ++ reason ++ "\n")] := by
  rcases hc : connection_sequence (connection_of env d t) d.device_type
      (env.split d.mult_command ';') with ⟨calls, r⟩
  rw [hc] at hq
  simp only at hq
  subst hq
  rcases hr with ⟨he, hr⟩ | ⟨he, hr⟩
  · subst he hr
    rw [execute_commands_auth env d t calls hs hc]
  · subst he hr
    rw [execute_commands_timeout env d t calls hs hc]

/-- The file operations of `execute_commands` when the connection sequence
completes. -/
theorem execute_commands_ops_success (env : TaskEnv) (d : Device) (t : Int)
    (o : String)
    (hs : stoi d.readtime = .ok t)
    (hq : (connection_sequence (connection_of env d t) d.device_type
      (env.split d.mult_command ';')).2 = .ok o) :
    (execute_commands env d).ops
      = [.create_directory ("./result" ++ env.get_current_date_str),
          .write ("./result" ++ env.get_current_date_str ++ "/" ++ d.host ++ ".txt") o] := by
  rcases hc : connection_sequence (connection_of env d t) d.device_type
      (env.split d.mult_command ';') with ⟨calls, r⟩
  rw [hc] at hq
  simp only at hq
  subst hq
  rw [execute_commands_success env d t calls o hs hc]

/-- C5: when a call of the connection sequence of a device throws the
authentication exception (the timeout exception), be it `connect`, `enable`
on the default path, or the `send_multiline` of the path of the device, the
only file operation of `execute_commands` is one append to
`login_failed_list.txt` of the host followed by
`" Invalid username or password"` (`" Login timed out"`) and a line break.
On any file system where the log can be opened, the log afterwards is its
earlier content followed by that text, every other file and the directories
are as before, so no output file is written; and for a host without line
break and a log that is empty or ends with a line break, the lines of the
log are the earlier lines followed by exactly that one line. -/
theorem C5_failure_appends_one_line (env : TaskEnv) (d : Device) (t : Int)
    (e : NetmikoException) (reason : String)
    (hs : stoi d.readtime = .ok t)
    (hfail : (connection_of env d t).connect = .error e
      ∨ ((connection_of env d t).connect = .ok ()
          ∧ d.device_type = " PaloAltoPanorama"
          ∧ (connection_of env d t).send_multiline (env.split d.mult_command ';')
              (some "> ") = .error e)
      ∨ ((connection_of env d t).connect = .ok ()
          ∧ (d.device_type = "Huawei" ∨ d.device_type = "HuaweiTelnet"
            ∨ d.device_type = "HPComware" ∨ d.device_type = "HPComwareTelnet")
          ∧ (connection_of env d t).send_multiline (env.split d.mult_command ';')
              none = .error e)
      ∨ ((connection_of env d t).connect = .ok ()
          ∧ d.device_type ≠ " PaloAltoPanorama"
          ∧ ¬ (d.device_type = "Huawei" ∨ d.device_type = "HuaweiTelnet"
            ∨ d.device_type = "HPComware" ∨ d.device_type = "HPComwareTelnet")
          ∧ (connection_of env d t).enable = .error e)
      ∨ ((connection_of env d t).connect = .ok ()
          ∧ d.device_type ≠ " PaloAltoPanorama"
          ∧ ¬ (d.device_type = "Huawei" ∨ d.device_type = "HuaweiTelnet"
            ∨ d.device_type = "HPComware" ∨ d.device_type = "HPComwareTelnet")
          ∧ (connection_of env d t).enable = .ok ()
          ∧ (connection_of env d t).send_multiline (env.split d.mult_command ';')
              none = .error e))
    (hr : (e = .NetmikoAuthenticationException ∧ reason = " Invalid username or password")
      ∨ (e = .NetmikoTimeoutException ∧ reason = " Login timed out")) :
    (execute_commands env d).ops
      = [.append "login_failed_list.txt" (d.host ++ reason ++ "\n")]
    ∧ ∀ fs : FS, fs.is_dir (fs.cwd ++ ["login_failed_list.txt"]) = false →
        (fs.run (execute_commands env d).ops).read "login_failed_list.txt"
          = some ((fs.read "login_failed_list.txt").getD "" ++ (d.host ++ reason ++ "\n"))
        ∧ (∀ place, place ≠ fs.cwd ++ ["login_failed_list.txt"] →
            (fs.run (execute_commands env d).ops).file_at place = fs.file_at place)
        ∧ (fs.run (execute_commands env d).ops).dirs = fs.dirs
        ∧ ('\n' ∉ d.host.toList →
            ((fs.read "login_failed_list.txt").getD "" = ""
              ∨ ∃ pre : String, (fs.read "login_failed_list.txt").getD "" = pre ++ "\n") →
            file_lines
                (((fs.run (execute_commands env d).ops).read "login_failed_list.txt").getD "")
              = file_lines ((fs.read "login_failed_list.txt").getD "")
                  ++ [d.host ++ reason]) := by
  have hq : (connection_sequence (connection_of env d t) d.device_type
      (env.split d.mult_command ';')).2 = .error e := by
    rw [connection_sequence_result]
    rcases hfail with h | ⟨h1, h2, h3⟩ | ⟨h1, h2, h3⟩ | ⟨h1, h2, h3, h4⟩ | ⟨h1, h2, h3, h4, h5⟩
    · rw [h]
    · rw [h1]
      simp only [h2, if_true]
      exact h3
    · have hp : d.device_type ≠ " PaloAltoPanorama" := by
        rcases h2 with h | h | h | h <;> rw [h] <;> decide
      rw [h1]
      simp only [hp, h2, if_true, if_false]
      exact h3
    · rw [h1]
      simp only [h2, h3, if_false]
      rw [h4]
    · rw [h1]
      simp only [h2, h3, if_false]
      rw [h4]
      exact h5
  have hops := execute_commands_ops_failure env d t e reason hs hq hr
  refine ⟨hops, ?_⟩
  intro fs hlog
  rw [hops, fs.run_append_log _ hlog]
  have hlog2 : FS.is_dir
      { fs with
        files := (fs.cwd ++ ["login_failed_list.txt"],
          (fs.file_at (fs.cwd ++ ["login_failed_list.txt"])).getD ""
            ++ (d.host ++ reason ++ "\n")) :: fs.files }
      (fs.cwd ++ ["login_failed_list.txt"]) = false := hlog
  have hread : FS.read
      { fs with
        files := (fs.cwd ++ ["login_failed_list.txt"],
          (fs.file_at (fs.cwd ++ ["login_failed_list.txt"])).getD ""
            ++ (d.host ++ reason ++ "\n")) :: fs.files }
      "login_failed_list.txt"
        = some ((fs.read "login_failed_list.txt").getD "" ++ (d.host ++ reason ++ "\n")) := by
    rw [FS.read_log _ hlog2, fs.read_log hlog]
    simp [FS.file_at, List.lookup]
  refine ⟨hread, ?_, rfl, ?_⟩
  · intro place hplace
    have hb : (place == fs.cwd ++ ["login_failed_list.txt"]) = false := by
      simpa using hplace
    simp [FS.file_at, List.lookup, hb]
  · intro hhost hold
    rw [hread]
    have hline : '\n' ∉ (d.host ++ reason).toList := by
      simp only [String.toList, String.data_append, List.mem_append, not_or]
      refine ⟨hhost, ?_⟩
      rcases hr with ⟨_, hr⟩ | ⟨_, hr⟩ <;> rw [hr] <;> decide
    exact file_lines_append _ _ hline hold

/-- Witness of C5: a refused `connect`, a refused `enable` on the default
path and a `send_multiline` that times out on a Huawei device, each with the
log of the sample file system. -/
theorem C5_failure_appends_one_line_witness :
    file_lines (((sample_fs.run
        (execute_commands (task_env (conn_refused .NetmikoAuthenticationException))
          (sample_device "CiscoIOS")).ops).read "login_failed_list.txt").getD "")
      = ["10.0.0.9 Login timed out", "10.0.0.1 Invalid username or password"]
    ∧ (execute_commands (task_env conn_enable_fails) (sample_device "CiscoIOS")).ops
      = [.append "login_failed_list.txt" "10.0.0.1 Invalid username or password\n"]
    ∧ (execute_commands (task_env conn_send_fails) (sample_device "Huawei")).ops
      = [.append "login_failed_list.txt" "10.0.0.1 Login timed out\n"] :=
  ⟨((C5_failure_appends_one_line (task_env (conn_refused .NetmikoAuthenticationException))
      (sample_device "CiscoIOS") 10 .NetmikoAuthenticationException
      " Invalid username or password" (by decide) (Or.inl rfl)
      (Or.inl ⟨rfl, rfl⟩)).2 sample_fs (by decide)).2.2.2 (by decide)
      (Or.inr ⟨"10.0.0.9 Login timed out", by decide⟩),
    (C5_failure_appends_one_line (task_env conn_enable_fails)
      (sample_device "CiscoIOS") 10 .NetmikoAuthenticationException
      " Invalid username or password" (by decide)
      (Or.inr (Or.inr (Or.inr (Or.inl ⟨rfl, by decide, by decide, rfl⟩))))
      (Or.inl ⟨rfl, rfl⟩)).1,
    (C5_failure_appends_one_line (task_env conn_send_fails)
      (sample_device "Huawei") 10 .NetmikoTimeoutException
      " Login timed out" (by decide)
      (Or.inr (Or.inr (Or.inl ⟨rfl, by decide, rfl⟩)))
      (Or.inr ⟨rfl, rfl⟩)).1⟩

/-- C6 (as amended): when `connect`, `enable` (on the default path) and the
`send_multiline` of the path of the device all return and the output is `o`,
the file operations of `execute_commands` are the creation of the directory
`./result<date>` and one write of `o` to `./result<date>/<host>.txt`.  When
neither the host nor the date holds a `/`, on any file system where that
directory exists or can be created and no directory has the name of the
output file, that file afterwards holds exactly `o`, whatever it held
before, and every other file, `login_failed_list.txt` among them, is as
before: nothing is appended to the log. -/
theorem C6_success_writes_output_file (env : TaskEnv) (d : Device) (t : Int)
    (o : String)
    (hs : stoi d.readtime = .ok t)
    (hconn : (connection_of env d t).connect = .ok ())
    (hcalls : (d.device_type = " PaloAltoPanorama"
          ∧ (connection_of env d t).send_multiline (env.split d.mult_command ';')
              (some "> ") = .ok o)
      ∨ ((d.device_type = "Huawei" ∨ d.device_type = "HuaweiTelnet"
            ∨ d.device_type = "HPComware" ∨ d.device_type = "HPComwareTelnet")
          ∧ (connection_of env d t).send_multiline (env.split d.mult_command ';')
              none = .ok o)
      ∨ (d.device_type ≠ " PaloAltoPanorama"
          ∧ ¬ (d.device_type = "Huawei" ∨ d.device_type = "HuaweiTelnet"
            ∨ d.device_type = "HPComware" ∨ d.device_type = "HPComwareTelnet")
          ∧ (connection_of env d t).enable = .ok ()
          ∧ (connection_of env d t).send_multiline (env.split d.mult_command ';')
              none = .ok o)) :
    (execute_commands env d).ops
      = [.create_directory ("./result" ++ env.get_current_date_str),
          .write ("./result" ++ env.get_current_date_str ++ "/" ++ d.host ++ ".txt") o]
    ∧ ('/' ∉ d.host.toList → '/' ∉ env.get_current_date_str.toList →
        ∀ fs : FS,
          (fs.is_dir (fs.cwd ++ ["result" ++ env.get_current_date_str]) = true
            ∨ fs.file_at (fs.cwd ++ ["result" ++ env.get_current_date_str]) = none) →
          fs.is_dir (fs.cwd ++ ["result" ++ env.get_current_date_str, d.host ++ ".txt"])
            = false →
          (fs.run (execute_commands env d).ops).read
              ("./result" ++ env.get_current_date_str ++ "/" ++ d.host ++ ".txt") = some o
          ∧ (fs.run (execute_commands env d).ops).is_dir
              (fs.cwd ++ ["result" ++ env.get_current_date_str]) = true
          ∧ (fs.run (execute_commands env d).ops).read "login_failed_list.txt"
              = fs.read "login_failed_list.txt"
          ∧ ∀ place,
              place ≠ fs.cwd ++ ["result" ++ env.get_current_date_str, d.host ++ ".txt"] →
              (fs.run (execute_commands env d).ops).file_at place = fs.file_at place) := by
  have hq : (connection_sequence (connection_of env d t) d.device_type
      (env.split d.mult_command ';')).2 = .ok o := by
    rw [connection_sequence_result, hconn]
    rcases hcalls with ⟨h2, h3⟩ | ⟨h2, h3⟩ | ⟨h2, h3, h4, h5⟩
    · simp only [h2, if_true]
      exact h3
    · have hp : d.device_type ≠ " PaloAltoPanorama" := by
        rcases h2 with h | h | h | h <;> rw [h] <;> decide
      simp only [hp, h2, if_true, if_false]
      exact h3
    · simp only [h2, h3, if_false]
      rw [h4]
      exact h5
  have hops := execute_commands_ops_success env d t o hs hq
  refine ⟨hops, ?_⟩
  intro hhost hdate fs hd hf
  obtain ⟨dirs, hrun, hdirs, hmem⟩ :=
    fs.run_output env.get_current_date_str d.host o hdate hhost hd hf
  rw [hops, hrun]
  have hdir2 : FS.is_dir
      { cwd := fs.cwd, dirs := dirs,
        files := (fs.cwd ++ ["result" ++ env.get_current_date_str, d.host ++ ".txt"], o)
          :: fs.files }
      (fs.cwd ++ ["result" ++ env.get_current_date_str]) = true :=
    FS.is_dir_of_mem _ _ hmem
  have hfile : ∀ place,
      place ≠ fs.cwd ++ ["result" ++ env.get_current_date_str, d.host ++ ".txt"] →
      FS.file_at
        { cwd := fs.cwd, dirs := dirs,
          files := (fs.cwd ++ ["result" ++ env.get_current_date_str, d.host ++ ".txt"], o)
            :: fs.files } place = fs.file_at place := by
    intro place hplace
    have hb : (place == fs.cwd ++ ["result" ++ env.get_current_date_str, d.host ++ ".txt"])
        = false := by
      simpa using hplace
    simp [FS.file_at, List.lookup, hb]
  have hlogne : fs.cwd ++ ["login_failed_list.txt"]
      ≠ fs.cwd ++ ["result" ++ env.get_current_date_str, d.host ++ ".txt"] := by
    intro h
    have h2 := congrArg List.length h
    simp at h2
  have hlogdir : FS.is_dir
      { cwd := fs.cwd, dirs := dirs,
        files := (fs.cwd ++ ["result" ++ env.get_current_date_str, d.host ++ ".txt"], o)
          :: fs.files }
      (fs.cwd ++ ["login_failed_list.txt"])
        = fs.is_dir (fs.cwd ++ ["login_failed_list.txt"]) := by
    rcases hdirs with h | h
    · subst h
      rfl
    · subst h
      have hne : fs.cwd ++ ["login_failed_list.txt"]
          ≠ fs.cwd ++ ["result" ++ env.get_current_date_str] := by
        intro h
        have h2 := List.append_cancel_left h
        simp only [List.cons.injEq, and_true] at h2
        exact (result_name_proper env.get_current_date_str).2.2.2 h2.symm
      simp [FS.is_dir, hne]
  have hf2 : FS.is_dir
      { cwd := fs.cwd, dirs := dirs,
        files := (fs.cwd ++ ["result" ++ env.get_current_date_str, d.host ++ ".txt"], o)
          :: fs.files }
      (fs.cwd ++ ["result" ++ env.get_current_date_str, d.host ++ ".txt"]) = false := by
    have hne0 : fs.cwd ++ ["result" ++ env.get_current_date_str, d.host ++ ".txt"] ≠ [] := by
      intro h
      have h2 := congrArg List.length h
      simp at h2
    have hne1 : fs.cwd ++ ["result" ++ env.get_current_date_str, d.host ++ ".txt"]
        ≠ fs.cwd ++ ["result" ++ env.get_current_date_str] := by
      intro h
      have h2 := congrArg List.length h
      simp at h2
    apply FS.not_is_dir _ _ hne0
    have hf3 := fs.not_mem_of_not_is_dir _ hf
    rcases hdirs with h | h
    · subst h
      exact hf3
    · subst h
      intro hin
      rcases List.mem_cons.mp hin with hin | hin
      · exact hne1 hin
      · exact hf3 hin
  refine ⟨?_, hdir2, ?_, hfile⟩
  · unfold FS.read
    rw [FS.locate_output_file _ env.get_current_date_str d.host hdate hhost hdir2]
    simp only [hf2, Bool.false_eq_true, if_false]
    simp [FS.file_at, List.lookup]
  · unfold FS.read
    rw [FS.locate_log, FS.locate_log]
    simp only
    rw [hlogdir, hfile _ hlogne]

/-- Witness of C6: a CiscoIOS device on a connection where every call
succeeds and the commands return `"out"`, on the sample file system. -/
theorem C6_success_writes_output_file_witness :
    (execute_commands (task_env conn_ok) (sample_device "CiscoIOS")).ops
      = [.create_directory "./result2024-01-01",
          .write "./result2024-01-01/10.0.0.1.txt" "out"]
    ∧ (sample_fs.run (execute_commands (task_env conn_ok) (sample_device "CiscoIOS")).ops).read
        "./result2024-01-01/10.0.0.1.txt" = some "out"
    ∧ (sample_fs.run (execute_commands (task_env conn_ok) (sample_device "CiscoIOS")).ops).read
        "login_failed_list.txt" = some "10.0.0.9 Login timed out\n" :=
  have h := C6_success_writes_output_file (task_env conn_ok) (sample_device "CiscoIOS") 10
    "out" (by decide) rfl (Or.inr (Or.inr ⟨by decide, by decide, rfl, rfl⟩))
  have h2 := h.2 (by decide) (by decide) sample_fs (by decide) (by decide)
  ⟨h.1, h2.1, h2.2.2.1.trans (by decide)⟩

/-- C6 as stated fails for a host with a `/`.  With host `a/b` every call
succeeds, yet the directory `./result2024-01-01/a` does not exist, the stream
does not open and no file `./result2024-01-01/a/b.txt` exists afterwards.
With host `../login_failed_list` the path of the output file is that of the
failure log, whose content is replaced by the output. -/
theorem C6_counterexample :
    (execute_commands (task_env conn_ok) (sample_device_at "a/b")).calls
      = [.connect, .enable, .send_multiline ["show version", "show clock"] none,
          .disconnect]
    ∧ (execute_commands (task_env conn_ok) (sample_device_at "a/b")).ops
      = [.create_directory "./result2024-01-01",
          .write "./result2024-01-01/a/b.txt" "out"]
    ∧ (sample_fs.run (execute_commands (task_env conn_ok) (sample_device_at "a/b")).ops).read
        "./result2024-01-01/a/b.txt" = none
    ∧ sample_fs.read "login_failed_list.txt" = some "10.0.0.9 Login timed out\n"
    ∧ (sample_fs.run
        (execute_commands (task_env conn_ok) (sample_device_at "../login_failed_list")).ops).read
        "login_failed_list.txt" = some "out" := by
  decide

/-! ## One outcome per device -/

/-- The file operations of `execute_commands`: none when `stoi` rejects the
read time; otherwise either the directory and one output file named after
the host, or one line in the failure log that starts with the host. -/
theorem execute_commands_ops (env : TaskEnv) (d : Device) :
    (stoi_accepts d.readtime = false ∧ (execute_commands env d).ops = [])
    ∨ (stoi_accepts d.readtime = true
        ∧ ((∃ o, (execute_commands env d).ops
              = [.create_directory ("./result" ++ env.get_current_date_str),
                  .write ("./result" ++ env.get_current_date_str ++ "/" ++ d.host ++ ".txt")
                    o])
          ∨ (execute_commands env d).ops
              = [.append "login_failed_list.txt" (d.host ++ " Login timed out" ++ "\n")]
          ∨ (execute_commands env d).ops
              = [.append "login_failed_list.txt"
                  (d.host ++ " Invalid username or password" ++ "\n")])) := by
  cases hs : stoi d.readtime with
  | error e =>
    left
    rw [execute_commands_stoi_error env d e hs]
    simp [stoi_accepts, hs]
  | ok t =>
    right
    refine ⟨by simp [stoi_accepts, hs], ?_⟩
    rcases hq : connection_sequence (connection_of env d t) d.device_type
        (env.split d.mult_command ';') with ⟨calls, e | o⟩
    · cases e
      · right; left
        rw [execute_commands_timeout env d t calls hs hq]
      · right; right
        rw [execute_commands_auth env d t calls hs hq]
    · left
      exact ⟨o, by rw [execute_commands_success env d t calls o hs hq]⟩

/-- A task records one outcome when `stoi` reads the read time, none
otherwise. -/
theorem records_execute_commands (env : TaskEnv) (d : Device) :
    records (execute_commands env d) = if stoi_accepts d.readtime then 1 else 0 := by
  rcases execute_commands_ops env d with ⟨ha, h⟩ | ⟨ha, ⟨o, h⟩ | h | h⟩ <;>
    simp [records, h, ha, is_record]

/-- Sum of the records of the tasks of a list of devices, numbered from `n`. -/
theorem records_enumFrom (env : ProcEnv) (devices : List Device) :
    ∀ n : Nat,
      (((devices.enumFrom n).map
          (fun p => execute_commands (env.task p.1) p.2)).map records).sum
        = devices.countP (fun d => stoi_accepts d.readtime) := by
  induction devices with
  | nil => intro n; rfl
  | cons d ds ih =>
    intro n
    simp only [List.enumFrom_cons, List.map_cons, List.sum_cons, ih (n + 1),
      records_execute_commands, List.countP_cons]
    split <;> simp_all [Nat.add_comm]

/-- The devices that `main` read and the tasks it ran. -/
theorem main_tasks (env : ProcEnv) (argv : List String) :
    (main env argv).tasks = run_tasks env (main env argv).devices := by
  unfold main
  split
  · rfl
  · split <;> rfl

/-- C8 (as amended): when `main` returns there is one task result per device;
a device whose read time `stoi` reads caused exactly one output-file write
(of the file named after its host) or one failure-log line starting with its
host; a device whose read time `stoi` rejects caused neither; so the writes
and failure-log lines total the number of devices with a read time that
`stoi` reads. -/
theorem C8_one_record_per_numeric_device (env : ProcEnv) (argv : List String) :
    (main env argv).tasks.length = (main env argv).devices.length
    ∧ (((main env argv).tasks.map records).sum
        = (main env argv).devices.countP (fun d => stoi_accepts d.readtime))
    ∧ ∀ (i : Nat) (d : Device), (main env argv).devices[i]? = some d →
        ∃ r, (main env argv).tasks[i]? = some r
          ∧ records r = (if stoi_accepts d.readtime then 1 else 0)
          ∧ ((stoi_accepts d.readtime = false ∧ r.ops = [])
            ∨ (stoi_accepts d.readtime = true
              ∧ ((∃ o, r.ops
                    = [.create_directory ("./result" ++ (env.task i).get_current_date_str),
                        .write ("./result" ++ (env.task i).get_current_date_str ++ "/"
                          ++ d.host ++ ".txt") o])
                ∨ r.ops = [.append "login_failed_list.txt"
                    (d.host ++ " Login timed out" ++ "\n")]
                ∨ r.ops = [.append "login_failed_list.txt"
                    (d.host ++ " Invalid username or password" ++ "\n")]))) := by
  rw [main_tasks]
  refine ⟨by simp [run_tasks], ?_, ?_⟩
  · exact records_enumFrom env (main env argv).devices 0
  · intro i d hd
    refine ⟨execute_commands (env.task i) d, ?_, records_execute_commands _ _,
      execute_commands_ops _ _⟩
    simp [run_tasks, List.getElem?_map, List.getElem?_enum, hd]

/-- Witness of C8: the second device of `mixed.csv`, whose read time is 10,
records one outcome. -/
theorem C8_one_record_per_numeric_device_witness :
    (main sample_env ["connexec", "-c", "mixed.csv"]).devices[1]?
      = some { host := "10.0.0.2", username := "admin", device_type := "CiscoIOS",
               password := "pw", secret := "sec", readtime := "10",
               mult_command := "show version" }
    ∧ ∃ r, (main sample_env ["connexec", "-c", "mixed.csv"]).tasks[1]? = some r
        ∧ records r = 1 :=
  ⟨by decide,
    match (C8_one_record_per_numeric_device sample_env ["connexec", "-c", "mixed.csv"]).2.2 1
        { host := "10.0.0.2", username := "admin", device_type := "CiscoIOS",
          password := "pw", secret := "sec", readtime := "10",
          mult_command := "show version" } (by decide) with
    | ⟨r, h1, h2, _⟩ => ⟨r, h1, h2.trans (by decide)⟩⟩

/-- C8 as stated fails: `mixed.csv` holds two devices, the read time of the
first is `abc`; `main` returns 0 with one record in all, the task of the
first device having ended with `invalid_argument` and no file operation. -/
theorem C8_counterexample :
    (main sample_env ["connexec", "-c", "mixed.csv"]).exit_code = 0
    ∧ (main sample_env ["connexec", "-c", "mixed.csv"]).devices.length = 2
    ∧ (((main sample_env ["connexec", "-c", "mixed.csv"]).tasks.map records).sum = 1)
    ∧ (main sample_env ["connexec", "-c", "mixed.csv"]).tasks[0]?
        = some { calls := [], ops := [], stdout := [],
                 uncaught := some .invalid_argument } := by
  decide

/-! ## Command line -/

/-- The option loop stops with the usage line as its last output when some
result of `getopt` is a `-t` whose value `stoi` rejects, or is not an option
of the program. -/
theorem option_loop_rejects (env : ProcEnv) (opts : List (Char × String)) :
    ∀ o : Options,
      (∃ p ∈ opts, (p.1 = 't' ∧ stoi_accepts p.2 = false) ∨ (p.1 ≠ 'c' ∧ p.1 ≠ 't')) →
      ∃ out, option_loop env opts o = .error out ∧ out.getLast? = some usage := by
  induction opts with
  | nil =>
    intro o h
    obtain ⟨p, hp, _⟩ := h
    cases hp
  | cons q rest ih =>
    intro o h
    obtain ⟨c, a⟩ := q
    unfold option_loop
    by_cases hc : c = 'c'
    · simp only [hc, if_true]
      apply ih
      obtain ⟨p, hp, hbad⟩ := h
      rcases List.mem_cons.mp hp with rfl | hp
      · rcases hbad with ⟨h1, _⟩ | ⟨h1, _⟩
        · simp only at h1
          rw [hc] at h1
          exact absurd h1 (by decide)
        · exact absurd hc h1
      · exact ⟨p, hp, hbad⟩
    · simp only [hc, if_false]
      by_cases ht : c = 't'
      · simp only [ht, if_true]
        cases hs : stoi a with
        | error e => exact ⟨_, rfl, rfl⟩
        | ok n =>
          simp only
          apply ih
          obtain ⟨p, hp, hbad⟩ := h
          rcases List.mem_cons.mp hp with rfl | hp
          · rcases hbad with ⟨_, h2⟩ | ⟨_, h2⟩
            · simp [stoi_accepts, hs] at h2
            · exact absurd ht h2
          · exact ⟨p, hp, hbad⟩
      · simp only [ht, if_false]
        exact ⟨_, rfl, rfl⟩

/-- C9 (as amended): when `getopt` yields a `-t` whose value `stoi` rejects
(no digit after optional white space and sign, or a value outside `int`), or
yields `?` for an option other than `-c` and `-t`, `main` prints the usage
message as its last line and returns 1; no file is loaded and no task is
started. -/
theorem C9_rejected_options_exit_1 (env : ProcEnv) (argv : List String)
    (h : ∃ p ∈ getopt_all env.permute (argv.drop 1),
      (p.1 = 't' ∧ stoi_accepts p.2 = false) ∨ (p.1 ≠ 'c' ∧ p.1 ≠ 't')) :
    (main env argv).exit_code = 1
    ∧ (main env argv).stdout.getLast? = some usage
    ∧ (main env argv).loaded = []
    ∧ (main env argv).devices = []
    ∧ (main env argv).events = []
    ∧ (main env argv).tasks = [] := by
  obtain ⟨out, ho, hl⟩ := option_loop_rejects env _ { excel_file := "", num_threads := 4 } h
  have hm : main env argv
      = { exit_code := 1, stdout := out, stderr := [], num_threads := none, loaded := [],
          devices := [], events := [], tasks := [] } := by
    unfold main
    simp only [ho]
  rw [hm]
  exact ⟨rfl, hl, rfl, rfl, rfl, rfl⟩

/-- Witness of C9: the value `abc` for `-t`. -/
theorem C9_rejected_options_exit_1_witness :
    (main sample_env ["connexec", "-c", "devices.csv", "-t", "abc"]).exit_code = 1
    ∧ (main sample_env ["connexec", "-c", "devices.csv", "-t", "abc"]).stdout
        = ["Error: stoi", usage]
    ∧ (main sample_env ["connexec", "-c", "devices.csv", "-t", "abc"]).tasks = [] :=
  ⟨(C9_rejected_options_exit_1 sample_env ["connexec", "-c", "devices.csv", "-t", "abc"]
      ⟨('t', "abc"), by decide, Or.inl (by decide)⟩).1,
    by decide, by decide⟩

/-- C9 as stated fails: `4x` is not a decimal integer, yet `stoi` reads 4
from it; `main` prints no usage message, loads the file, starts a task per
device and returns 0. -/
theorem C9_counterexample :
    is_decimal_integer "4x" = false
    ∧ stoi "4x" = .ok 4
    ∧ (main sample_env ["connexec", "-c", "devices.csv", "-t", "4x"]).exit_code = 0
    ∧ (main sample_env ["connexec", "-c", "devices.csv", "-t", "4x"]).stdout = []
    ∧ (main sample_env ["connexec", "-c", "devices.csv", "-t", "4x"]).num_threads = some 4
    ∧ (main sample_env ["connexec", "-c", "devices.csv", "-t", "4x"]).loaded
        = ["devices.csv"]
    ∧ (main sample_env ["connexec", "-c", "devices.csv", "-t", "4x"]).tasks.length = 2 := by
  decide

/-- The option loop completes when every result of `getopt` is a `-c` or a
`-t` whose value `stoi` reads; the file name is then the value of a `-c`, or
the one before the loop when there is no `-c`. -/
theorem option_loop_accepts (env : ProcEnv) (opts : List (Char × String))
    (hall : ∀ p ∈ opts, p.1 = 'c' ∨ (p.1 = 't' ∧ stoi_accepts p.2 = true)) :
    ∀ o : Options,
      ∃ o2, option_loop env opts o = .ok o2
        ∧ (('c', o2.excel_file) ∈ opts
          ∨ ((∀ p ∈ opts, p.1 ≠ 'c') ∧ o2.excel_file = o.excel_file)) := by
  induction opts with
  | nil =>
    intro o
    exact ⟨o, rfl, Or.inr ⟨by simp, rfl⟩⟩
  | cons q rest ih =>
    intro o
    obtain ⟨c, a⟩ := q
    have hrest : ∀ p ∈ rest, p.1 = 'c' ∨ (p.1 = 't' ∧ stoi_accepts p.2 = true) :=
      fun p hp => hall p (List.mem_cons_of_mem _ hp)
    unfold option_loop
    by_cases hc : c = 'c'
    · simp only [hc, if_true]
      obtain ⟨o2, h2, h3⟩ := ih hrest { o with excel_file := a }
      refine ⟨o2, h2, Or.inl ?_⟩
      rcases h3 with h3 | ⟨_, h3⟩
      · exact List.mem_cons_of_mem _ h3
      · rw [h3]
        exact List.mem_cons_self _ _
    · simp only [hc, if_false]
      have hq := hall (c, a) (List.mem_cons_self _ _)
      rcases hq with hq | ⟨hq, hacc⟩
      · exact absurd hq hc
      · simp only at hq hacc
        subst hq
        simp only [if_true]
        cases hs : stoi a with
        | error e => simp [stoi_accepts, hs] at hacc
        | ok n =>
          simp only
          obtain ⟨o2, h2, h3⟩ := ih hrest { o with num_threads := n }
          refine ⟨o2, h2, ?_⟩
          rcases h3 with h3 | ⟨h3, h4⟩
          · exact Or.inl (List.mem_cons_of_mem _ h3)
          · refine Or.inr ⟨?_, h4⟩
            intro p hp
            rcases List.mem_cons.mp hp with rfl | hp
            · exact hc
            · exact h3 p hp

/-- When every option is a `-c` with a file name or a `-t` with a value
that `stoi` reads, and a `-c` is present, `main` loads the file of a `-c`,
starts a task for every device in it and waits for each, and returns 0,
whatever the values of `-t`. -/
theorem accepted_options_run (env : ProcEnv) (argv : List String)
    (hall : ∀ p ∈ getopt_all env.permute (argv.drop 1),
      (p.1 = 'c' ∧ p.2 ≠ "") ∨ (p.1 = 't' ∧ stoi_accepts p.2 = true))
    (hc : ∃ p ∈ getopt_all env.permute (argv.drop 1), p.1 = 'c') :
    (main env argv).exit_code = 0
    ∧ (main env argv).stdout = []
    ∧ (∃ file, ('c', file) ∈ getopt_all env.permute (argv.drop 1)
        ∧ (main env argv).loaded = [file]
        ∧ (main env argv).devices = (load_excel env file).1)
    ∧ (main env argv).tasks.length = (main env argv).devices.length
    ∧ (main env argv).events
        = (List.range (main env argv).devices.length).map MainEvent.async
          ++ (List.range (main env argv).devices.length).map MainEvent.wait := by
  have hall2 : ∀ p ∈ getopt_all env.permute (argv.drop 1),
      p.1 = 'c' ∨ (p.1 = 't' ∧ stoi_accepts p.2 = true) := by
    intro p hp
    rcases hall p hp with ⟨h, _⟩ | h
    · exact Or.inl h
    · exact Or.inr h
  obtain ⟨o2, h2, h3⟩ := option_loop_accepts env _ hall2 { excel_file := "", num_threads := 4 }
  have hmem : ('c', o2.excel_file) ∈ getopt_all env.permute (argv.drop 1) := by
    rcases h3 with h3 | ⟨h3, _⟩
    · exact h3
    · obtain ⟨p, hp, hpc⟩ := hc
      exact absurd hpc (h3 p hp)
  have hne : o2.excel_file ≠ "" := by
    rcases hall _ hmem with ⟨_, h⟩ | ⟨h, _⟩
    · exact h
    · simp at h
  have hlen : (main env argv).tasks.length = (main env argv).devices.length := by
    rw [main_tasks]
    simp [run_tasks]
  refine ⟨?_, ?_, ⟨o2.excel_file, hmem, ?_, ?_⟩, hlen, ?_⟩ <;>
    · unfold main
      simp only [h2, hne, if_false]

/-- C10: with `-t 0` and with `-t -3` the option loop stores the value, no
later line of `main` reads it, and `main` returns 0 after it has started the
tasks of both devices of the file. -/
theorem C10_nonpositive_limit_runs :
    stoi "0" = .ok 0
    ∧ (main sample_env ["connexec", "-c", "devices.csv", "-t", "0"]).exit_code = 0
    ∧ (main sample_env ["connexec", "-c", "devices.csv", "-t", "0"]).num_threads = some 0
    ∧ (main sample_env ["connexec", "-c", "devices.csv", "-t", "0"]).events
        = [.async 0, .async 1, .wait 0, .wait 1]
    ∧ stoi "-3" = .ok (-3)
    ∧ (main sample_env ["connexec", "-t", "-3", "-c", "devices.csv"]).exit_code = 0
    ∧ (main sample_env ["connexec", "-t", "-3", "-c", "devices.csv"]).tasks.length = 2 := by
  decide

/-! ## Number of tasks that run together -/

/-- The steps of the main thread in a run of `async` steps. -/
theorem main_steps_async (l : List Nat) :
    main_steps (l.map (fun i => Event.main (.async i))) = l.map MainEvent.async := by
  induction l with
  | nil => rfl
  | cons i l ih => simp only [List.map_cons, main_steps, ih]

/-- A run of `async` steps can always happen and starts every task. -/
theorem exec_async (l : List Nat) :
    ∀ p : Pool, p.exec (l.map (fun i => Event.main (.async i)))
      = some { started := l.reverse ++ p.started, finished := p.finished } := by
  induction l with
  | nil => intro p; rfl
  | cons i l ih =>
    intro p
    simp only [List.map_cons, Pool.exec, Pool.step, ih, List.reverse_cons,
      List.append_assoc, List.singleton_append]

/-- Whatever the number of devices, the main thread can take all its `async`
steps before any task has ended, and then all the tasks run together. -/
theorem async_steps_run_together (n : Nat) :
    (reached ((List.range n).map MainEvent.async ++ (List.range n).map MainEvent.wait)
        ((List.range n).map (fun i => Event.main (.async i)))).map
      (fun p => p.running.length) = some n := by
  unfold reached
  rw [main_steps_async, if_pos (List.prefix_append _ _), exec_async]
  simp [Pool.running]

/-- C4: with `-t 1` and a file of two devices, `main` reads the limit 1 and
then starts both tasks before it waits for any of them: after the first
two steps of the main thread two tasks run `execute_commands` together. -/
theorem C4_limit_not_applied :
    (main sample_env ["connexec", "-c", "devices.csv", "-t", "1"]).num_threads = some 1
    ∧ (main sample_env ["connexec", "-c", "devices.csv", "-t", "1"]).events
        = [.async 0, .async 1, .wait 0, .wait 1]
    ∧ (reached (main sample_env ["connexec", "-c", "devices.csv", "-t", "1"]).events
          [.main (.async 0), .main (.async 1)]).map (fun p => p.running)
        = some [1, 0] := by
  decide

end Connexec
